import Mathlib

/-!
Verification development for the browser control layer of mcp-browser-lens.

The definitions below are a shallow embedding of the TypeScript sources,
chiefly `src/browser-providers/base-provider.ts` (the abstract
`BaseBrowserProvider` together with the `ChromeProvider` implementation),
`src/interfaces/types.ts`, `src/interfaces/capabilities.ts` and the
`scroll_page` tool handler in `src/server.ts`.

Asynchronous operations are modelled as pure functions from the provider
state and an explicit environment (the outcomes of the external HTTP and
Chrome DevTools Protocol interactions) to a trace of issued external
effects paired with an `Except`-style outcome, mirroring the thrown
JavaScript errors.
-/

namespace BrowserLens

/-- The mutable fields of `ChromeProvider` relevant to the connection
lifecycle: `this.connected` (from `BaseBrowserProvider`), whether
`this.cdpClient` is non-null, and `this.enabledDomains`
(a `Set<string>`, modelled as a duplicate-free list). -/
structure ProviderState where
  connected : Bool
  cdpClientOpen : Bool
  enabledDomains : List String
deriving DecidableEq, Repr

/-- The error taxonomy thrown by the provider, following
`src/interfaces/types.ts`: `BrowserConnectionError` (message, browser
type fixed to chrome here), `TabNotFoundError` (message, tabId),
`CaptureError` (message, tabId, captureType).  Precondition violations
are thrown in the source as plain `Error` values (for example
`new Error("CSS capture requires at least one selector")`); they form
the validation kind of the error taxonomy and are modelled by the
`validation` constructor carrying the message. -/
inductive OpError where
  | connection (message : String)
  | tabNotFound (message : String) (tabId : String)
  | capture (message : String) (tabId : String) (captureType : String)
  | validation (message : String)
deriving DecidableEq, Repr

/-- `TabInfo` from `src/interfaces/types.ts` (the fields used by the
control layer; `favIconUrl` and `windowId` are optional passthroughs). -/
structure TabInfo where
  id : String
  url : String
  title : String
  active : Bool
deriving DecidableEq, Repr

/-- `CaptureOptions` from `src/interfaces/types.ts`.  Optional fields are
`Option`s; a JavaScript `undefined` is `none`.  `quality` is the 0-100
lossy quality; `format` is one of png, jpeg, webp. -/
structure CaptureOptions where
  format : Option String
  quality : Option Nat
  fullPage : Option Bool
deriving DecidableEq, Repr

/-- JavaScript `a || b` on an optional number: the fallback is used when
the value is `undefined` or the falsy number `0`. -/
def jsOrNat (q : Option Nat) (fallback : Option Nat) : Option Nat :=
  match q with
  | none => fallback
  | some 0 => fallback
  | some q => some q

/-- JavaScript `a || b` on an optional string (only `undefined` and the
empty string are falsy). -/
def jsOrStr (s : Option String) (fallback : String) : String :=
  match s with
  | none => fallback
  | some "" => fallback
  | some s => s

/-- The parameter record passed to `Page.captureScreenshot`.  A `none`
quality corresponds to `quality: undefined`, which is omitted from the
serialized protocol command. -/
structure ScreenshotParams where
  format : String
  quality : Option Nat
  captureBeyondViewport : Bool
deriving DecidableEq, Repr

/-- `screenshotParams` as built in `ChromeProvider.captureScreenshot`:
`format: options.format || "png"`,
`quality: options.quality || (options.format === "jpeg" ? 80 : undefined)`,
`captureBeyondViewport: options.fullPage || false`.
(The `clip` member is omitted here; it does not interact with quality.) -/
def mkScreenshotParams (o : CaptureOptions) : ScreenshotParams :=
  { format := jsOrStr o.format "png"
    quality := jsOrNat o.quality (if o.format = some "jpeg" then some 80 else none)
    captureBeyondViewport := o.fullPage.getD false }

/-- `ChromeProvider.disconnect`, with `closeFails` the outcome of the
underlying `this.cdpClient.close()` call.  The source reads:
if not connected, return; otherwise, inside a try block, close the
client, null it out, clear `enabledDomains` and reset `connected`;
a catch block logs any error and does not rethrow.  Because the
state resets sit inside the try block after `close()`, a failing close
skips them.  The returned `Option OpError` is the error escaping to the
caller (always `none`: the catch swallows it). -/
def disconnect (s : ProviderState) (closeFails : Bool) : ProviderState × Option OpError :=
  if !s.connected then
    (s, none)
  else if s.cdpClientOpen && closeFails then
    (s, none)
  else
    ({ connected := false, cdpClientOpen := false, enabledDomains := [] }, none)

/-- Claim C1: `disconnect()` on any provider state never lets an error
escape and always leaves the provider Disconnected (connected flag
false, enabled-domain set cleared), including when the transport close
fails.  The code violates the state part: when the underlying
`cdpClient.close()` throws, the catch block swallows the error but the
`enabledDomains.clear()` and `connected = false` statements inside the
try block are skipped, so the provider remains Connected with its
domain set intact.  This theorem evaluates the embedded `disconnect`
at that failing input: no error escapes, yet the state is unchanged
and still connected. -/
theorem C1_disconnect_failed_close_leaves_connected :
    disconnect ⟨true, true, ["Page", "Runtime", "DOM"]⟩ true =
      (⟨true, true, ["Page", "Runtime", "DOM"]⟩, none) ∧
    (disconnect ⟨true, true, ["Page", "Runtime", "DOM"]⟩ true).1.connected = true := by
  constructor
  · rfl
  · rfl

/-- Claim C10: in `captureScreenshot`, a caller quality that is absent or
equal to 0 is replaced: for jpeg format the command carries quality 80,
otherwise the quality parameter is omitted; an explicit caller quality
of 0 is never forwarded to the browser. -/
theorem C10_quality_defaulting (o : CaptureOptions)
    (h : o.quality = none ∨ o.quality = some 0) :
    (mkScreenshotParams o).quality =
      (if o.format = some "jpeg" then some 80 else none) ∧
    ∀ o' : CaptureOptions, (mkScreenshotParams o').quality ≠ some 0 := by
  constructor
  · rcases h with h | h <;> simp [mkScreenshotParams, jsOrNat, h]
  · intro o'
    rcases ho : o'.quality with _ | q
    · simp [mkScreenshotParams, jsOrNat, ho]
    · rcases q with _ | q
      · simp [mkScreenshotParams, jsOrNat, ho]
      · simp [mkScreenshotParams, jsOrNat, ho]

/-- Witness for C10 at a concrete input: quality 0 with jpeg format is
turned into quality 80. -/
theorem C10_quality_defaulting_witness :
    (some 0 = none ∨ (some 0 : Option Nat) = some 0) ∧
    ((mkScreenshotParams ⟨some "jpeg", some 0, none⟩).quality =
      (if (some "jpeg" : Option String) = some "jpeg" then some 80 else none) ∧
    ∀ o' : CaptureOptions, (mkScreenshotParams o').quality ≠ some 0) :=
  ⟨Or.inr rfl, C10_quality_defaulting ⟨some "jpeg", some 0, none⟩ (Or.inr rfl)⟩

/-- `HTMLCaptureOptions` from `src/interfaces/types.ts`; every field is
optional. -/
structure HTMLCaptureOptions where
  includeStyles : Option Bool
  includeScripts : Option Bool
  prettify : Option Bool
  selectors : Option (List String)
deriving DecidableEq, Repr

/-- `CSSCaptureOptions` from `src/interfaces/types.ts`; `selectors` is
required by the type but the implementation still guards against a
missing value (`!options.selectors`), so it is modelled as optional. -/
structure CSSCaptureOptions where
  selectors : Option (List String)
  includeComputed : Option Bool
  includeInherited : Option Bool
  prettify : Option Bool
deriving DecidableEq, Repr

/-- `BrowserCapabilities` from `src/interfaces/capabilities.ts`
(`maxScreenshotDimensions` is the optional width/height pair). -/
structure BrowserCapabilities where
  canListTabs : Bool
  canCaptureScreenshots : Bool
  canCaptureHTML : Bool
  canCaptureCSS : Bool
  canNavigate : Bool
  canExtractElements : Bool
  canInjectJavaScript : Bool
  canCaptureFullPage : Bool
  canDetectLocalhost : Bool
  supportedImageFormats : List String
  maxScreenshotDimensions : Option (Nat × Nat)
  limitations : List String
deriving DecidableEq, Repr

/-- `TIER_1_CAPABILITIES` from `src/interfaces/capabilities.ts`. -/
def TIER_1_CAPABILITIES : BrowserCapabilities :=
  { canListTabs := true
    canCaptureScreenshots := true
    canCaptureHTML := true
    canCaptureCSS := true
    canNavigate := true
    canExtractElements := true
    canInjectJavaScript := true
    canCaptureFullPage := true
    canDetectLocalhost := true
    supportedImageFormats := ["png", "jpeg", "webp"]
    maxScreenshotDimensions := none
    limitations := [] }

/-- The character class of the selector-sanitization regular expression in
`BaseBrowserProvider.sanitizeSelectors`:
alphanumerics, whitespace, and the punctuation
hyphen underscore hash dot brackets colon parens comma greater plus
tilde star equals double-quote single-quote. -/
def selectorCharOk (c : Char) : Bool :=
  c.isAlphanum || c = ' ' || c = '\t' || c = '\n' || c = '\r' ||
  c = '\x0b' || c = '\x0c' ||
  c = '-' || c = '_' || c = '#' || c = '.' || c = '[' || c = ']' ||
  c = ':' || c = '(' || c = ')' || c = ',' || c = '>' || c = '+' ||
  c = '~' || c = '*' || c = '=' || c = '"' || c = '\''

/-- The sanitization test (the regular expression anchored on both ends
with a one-or-more quantifier): the selector is non-empty and every
character lies in the allow-listed class. -/
def selectorOk (s : String) : Bool :=
  !s.data.isEmpty && s.data.all selectorCharOk

/-- `BaseBrowserProvider.sanitizeSelectors`: keep exactly the selectors
matching the allow-list test. -/
def sanitizeSelectors (selectors : List String) : List String :=
  selectors.filter selectorOk

/-- The externally visible interactions an operation performs, in order:
the tab-list HTTP fetch (`/json/list`, performed by `listTabs` and hence
by `findTabById`), the availability probe (`/json/version`), the tab
activation HTTP POST (`/json/activate/tabId`), opening the root CDP
client, enabling a protocol domain on the root client, attaching a CDP
client to a tab (with its per-tab domain enables), evaluating a script
payload in a tab (the payload embeds the recorded selector list),
issuing the screenshot protocol command, and closing clients. -/
inductive Effect where
  | tabListFetch
  | probe
  | activatePost (tabId : String)
  | cdpOpen
  | domainEnable (domain : String)
  | tabConnect (tabId : String)
  | scriptEval (tabId : String) (selectors : List String)
  | screenshotCmd (tabId : String) (params : ScreenshotParams)
  | cdpClose
  | tabClose (tabId : String)
deriving DecidableEq, Repr

/-- The message of the `BrowserConnectionError` raised by
`assertConnected`. -/
def notConnectedMsg : String := "Browser not connected. Call connect() first."

/-- The message of the `TabNotFoundError` raised by `findTabById`. -/
def tabNotFoundMsg (tabId : String) : String :=
  "Tab with ID " ++ tabId ++ " not found"

/-- `tabs.find((t) => t.id === tabId)` as used by `findTabById`. -/
def findTab (tabs : List TabInfo) (tabId : String) : Option TabInfo :=
  tabs.find? (fun t => t.id == tabId)

/-- `error.message` of a thrown error, used where the source interpolates
the caught message into a wrapping error. -/
def OpError.message : OpError → String
  | .connection m => m
  | .tabNotFound m _ => m
  | .capture m _ _ => m
  | .validation m => m

/-- The environment of one tab session: whether `connectToTab` succeeds
(`connectErr` is the underlying message when it does not), whether the
protocol command or `Runtime.evaluate` call itself resolves (`cmdErr`
its message otherwise), and the `exceptionDetails.text` when the
evaluated page script threw. -/
structure TabSessionEnv where
  connectOk : Bool
  connectErr : String
  cmdOk : Bool
  cmdErr : String
  pageException : Option String
deriving DecidableEq, Repr

/-- A raw entry of the `/json/list` response used by
`ChromeProvider.listTabs` (`targetType` is the `type` field). -/
structure RawTab where
  id : String
  url : String
  title : String
  targetType : String
deriving DecidableEq, Repr

/-- The tab mapping in `ChromeProvider.listTabs`: filter to
`type === "page"` targets and mark exactly the first result active. -/
def mapTabs (raw : List RawTab) : List TabInfo :=
  ((raw.filter (fun t => t.targetType == "page")).enum).map
    (fun p => ⟨p.2.id, p.2.url, p.2.title, p.1 == 0⟩)

/-- `ChromeProvider.listTabs`: `assertConnected`, then the `/json/list`
fetch; a fetch failure is wrapped into a `BrowserConnectionError`. -/
def listTabsRun (s : ProviderState) (fetchOk : Bool) (fetchErr : String)
    (raw : List RawTab) : List Effect × Except OpError (List TabInfo) :=
  if !s.connected then ([], .error (.connection notConnectedMsg))
  else if !fetchOk then
    ([.tabListFetch], .error (.connection ("Failed to list Chrome tabs: " ++ fetchErr)))
  else ([.tabListFetch], .ok (mapTabs raw))

/-- `ChromeProvider.getCapabilities`: returns a copy of
`TIER_1_CAPABILITIES`; the method never consults the connection state
and has no failure path. -/
def getCapabilitiesRun (_s : ProviderState) :
    List Effect × Except OpError BrowserCapabilities :=
  ([], .ok TIER_1_CAPABILITIES)

/-- `ChromeProvider.captureScreenshot`: `assertConnected`, `findTabById`
(one tab-list fetch), connect to the tab, issue `Page.captureScreenshot`
with `mkScreenshotParams`, close the tab client in a finally block.
`data` is the base64 payload of a successful command.  A
`connectToTab` failure throws a `TabNotFoundError` inside the try block,
which the catch wraps into a `CaptureError` of kind screenshot; the
finally block closes the tab client only when it was opened. -/
def captureScreenshotRun (s : ProviderState) (tabs : List TabInfo)
    (tabId : String) (o : CaptureOptions) (env : TabSessionEnv)
    (data : String) : List Effect × Except OpError String :=
  if !s.connected then ([], .error (.connection notConnectedMsg))
  else match findTab tabs tabId with
  | none => ([.tabListFetch], .error (.tabNotFound (tabNotFoundMsg tabId) tabId))
  | some _ =>
    if !env.connectOk then
      ([.tabListFetch, .tabConnect tabId],
        .error (.capture ("Failed to capture screenshot: Failed to connect to tab "
          ++ tabId ++ ": " ++ env.connectErr) tabId "screenshot"))
    else if !env.cmdOk then
      ([.tabListFetch, .tabConnect tabId,
        .screenshotCmd tabId (mkScreenshotParams o), .tabClose tabId],
        .error (.capture ("Failed to capture screenshot: " ++ env.cmdErr)
          tabId "screenshot"))
    else
      ([.tabListFetch, .tabConnect tabId,
        .screenshotCmd tabId (mkScreenshotParams o), .tabClose tabId],
        .ok data)

/-- The selector list that `ChromeProvider.captureHTML` embeds into its
generated script payload: the extraction mode chosen when
`options.selectors && options.selectors.length > 0` serializes the
caller list verbatim with `JSON.stringify(options.selectors)` — no
sanitization is applied; the other two modes (strip mode when either
include flag is not truthy, verbatim serialization otherwise) embed no
selectors. -/
def htmlPayloadSelectors (o : HTMLCaptureOptions) : List String :=
  match o.selectors with
  | some ss => if 0 < ss.length then ss else []
  | none => []

/-- `ChromeProvider.captureHTML`: `assertConnected`, `findTabById`, tab
session, one `Runtime.evaluate` of the generated expression, finally
close.  `value` is the string value of a successful evaluation (the
optional prettify normalization of the returned string is not modelled;
the claims below concern the effect trace and the strip transformation,
which is modelled separately on a document tree). -/
def captureHTMLRun (s : ProviderState) (tabs : List TabInfo) (tabId : String)
    (o : HTMLCaptureOptions) (env : TabSessionEnv) (value : String) :
    List Effect × Except OpError String :=
  if !s.connected then ([], .error (.connection notConnectedMsg))
  else match findTab tabs tabId with
  | none => ([.tabListFetch], .error (.tabNotFound (tabNotFoundMsg tabId) tabId))
  | some _ =>
    if !env.connectOk then
      ([.tabListFetch, .tabConnect tabId],
        .error (.capture ("Failed to capture HTML: Failed to connect to tab "
          ++ tabId ++ ": " ++ env.connectErr) tabId "html"))
    else if !env.cmdOk then
      ([.tabListFetch, .tabConnect tabId,
        .scriptEval tabId (htmlPayloadSelectors o), .tabClose tabId],
        .error (.capture ("Failed to capture HTML: " ++ env.cmdErr) tabId "html"))
    else match env.pageException with
    | some text =>
      ([.tabListFetch, .tabConnect tabId,
        .scriptEval tabId (htmlPayloadSelectors o), .tabClose tabId],
        .error (.capture ("Failed to capture HTML: JavaScript execution failed: "
          ++ text) tabId "html"))
    | none =>
      ([.tabListFetch, .tabConnect tabId,
        .scriptEval tabId (htmlPayloadSelectors o), .tabClose tabId],
        .ok value)

/-- `ChromeProvider.captureCSS`: `assertConnected`, `findTabById`, then
the selector precondition (`!options.selectors ||
options.selectors.length === 0` throws a plain validation `Error`
before the try block), then tab session, one `Runtime.evaluate` whose
payload embeds `sanitizeSelectors(options.selectors)`, finally close. -/
def captureCSSRun (s : ProviderState) (tabs : List TabInfo) (tabId : String)
    (o : CSSCaptureOptions) (env : TabSessionEnv) (value : String) :
    List Effect × Except OpError String :=
  if !s.connected then ([], .error (.connection notConnectedMsg))
  else match findTab tabs tabId with
  | none => ([.tabListFetch], .error (.tabNotFound (tabNotFoundMsg tabId) tabId))
  | some _ =>
    match o.selectors with
    | none =>
      ([.tabListFetch], .error (.validation "CSS capture requires at least one selector"))
    | some ss =>
      if ss.length = 0 then
        ([.tabListFetch], .error (.validation "CSS capture requires at least one selector"))
      else if !env.connectOk then
        ([.tabListFetch, .tabConnect tabId],
          .error (.capture ("Failed to capture CSS: Failed to connect to tab "
            ++ tabId ++ ": " ++ env.connectErr) tabId "css"))
      else if !env.cmdOk then
        ([.tabListFetch, .tabConnect tabId,
          .scriptEval tabId (sanitizeSelectors ss), .tabClose tabId],
          .error (.capture ("Failed to capture CSS: " ++ env.cmdErr) tabId "css"))
      else match env.pageException with
      | some text =>
        ([.tabListFetch, .tabConnect tabId,
          .scriptEval tabId (sanitizeSelectors ss), .tabClose tabId],
          .error (.capture ("Failed to capture CSS: JavaScript execution failed: "
            ++ text) tabId "css"))
      | none =>
        ([.tabListFetch, .tabConnect tabId,
          .scriptEval tabId (sanitizeSelectors ss), .tabClose tabId],
          .ok value)

/-- `ChromeProvider.setActiveTab`: `assertConnected`, `findTabById`, then
the activation HTTP POST; a POST failure is wrapped into a
`BrowserConnectionError` (not a `CaptureError`). -/
def setActiveTabRun (s : ProviderState) (tabs : List TabInfo) (tabId : String)
    (postOk : Bool) (postErr : String) : List Effect × Except OpError Unit :=
  if !s.connected then ([], .error (.connection notConnectedMsg))
  else match findTab tabs tabId with
  | none => ([.tabListFetch], .error (.tabNotFound (tabNotFoundMsg tabId) tabId))
  | some _ =>
    if !postOk then
      ([.tabListFetch, .activatePost tabId],
        .error (.connection ("Failed to set active tab: " ++ postErr)))
    else ([.tabListFetch, .activatePost tabId], .ok ())

/-- One DOM element matched by a selector inside the extraction script:
`payload` abstracts the extracted information (tag, styles, attributes,
geometry), `throws` records whether inspecting this element raises a
page-script exception, and `errMsg` is that exception message. -/
structure PageElem where
  payload : Nat
  throws : Bool
  errMsg : String
deriving DecidableEq, Repr

/-- One entry pushed onto `elementsInfo` by the extraction script: either
a successfully inspected element (with the selector echoed back, using
an `:nth-child` suffix when the selector matched more than one element)
or an error marker entry carrying the `error` field. -/
inductive ExtractEntry where
  | ok (selector : String) (payload : Nat)
  | err (selector : String) (msg : String)
deriving DecidableEq, Repr

/-- The filter applied after evaluation: entries with an `error` field are
dropped (and logged). -/
def isOkEntry : ExtractEntry → Bool
  | .ok _ _ => true
  | .err _ _ => false

/-- The per-element loop of the extraction script over the first
`maxElements` matches: each element pushes its info entry; an element
whose inspection throws aborts the rest of the loop for this selector
(the entries already pushed remain) and the selector-level catch pushes
a single error marker entry.  `total` is `elements.length` (used for
the `:nth-child` suffix) and `i` the loop index. -/
def collectEntries (selector : String) (total : Nat) :
    Nat → List PageElem → List ExtractEntry
  | _, [] => []
  | i, e :: es =>
    if e.throws then
      [.err selector ("Error processing selector: " ++ e.errMsg)]
    else
      .ok (if total = 1 then selector
           else selector ++ ":nth-child(" ++ toString (i + 1) ++ ")") e.payload
        :: collectEntries selector total (i + 1) es

/-- The per-selector body of the extraction script: zero matches push one
`No elements found for selector` error entry; otherwise
`maxElements = Math.min(elements.length, 10)` matches are inspected. -/
def processSelector (selector : String) (ms : List PageElem) :
    List ExtractEntry :=
  if ms.length = 0 then
    [.err selector "No elements found for selector"]
  else
    collectEntries selector ms.length 0
      (ms.take (min ms.length 10))

/-- The whole extraction script: the per-selector bodies run in order and
push onto one shared `elementsInfo` array.  `dom` gives the matches of
each selector in the page. -/
def extractInPage (selectors : List String) (dom : String → List PageElem) :
    List ExtractEntry :=
  (selectors.map (fun s => processSelector s (dom s))).flatten

/-- `ChromeProvider.extractElements`: `assertConnected`, `findTabById`,
sanitize the selectors and fail with a plain validation `Error` when
none survive, then tab session, one `Runtime.evaluate` of the
extraction script, filter out error marker entries, finally close. -/
def extractElementsRun (s : ProviderState) (tabs : List TabInfo)
    (tabId : String) (selectors : List String) (env : TabSessionEnv)
    (dom : String → List PageElem) :
    List Effect × Except OpError (List ExtractEntry) :=
  if !s.connected then ([], .error (.connection notConnectedMsg))
  else match findTab tabs tabId with
  | none => ([.tabListFetch], .error (.tabNotFound (tabNotFoundMsg tabId) tabId))
  | some _ =>
    let sanitized := sanitizeSelectors selectors
    if sanitized.length = 0 then
      ([.tabListFetch], .error (.validation "No valid selectors provided"))
    else if !env.connectOk then
      ([.tabListFetch, .tabConnect tabId],
        .error (.capture ("Failed to extract elements: Failed to connect to tab "
          ++ tabId ++ ": " ++ env.connectErr) tabId "elements"))
    else if !env.cmdOk then
      ([.tabListFetch, .tabConnect tabId, .scriptEval tabId sanitized,
        .tabClose tabId],
        .error (.capture ("Failed to extract elements: " ++ env.cmdErr)
          tabId "elements"))
    else match env.pageException with
    | some text =>
      ([.tabListFetch, .tabConnect tabId, .scriptEval tabId sanitized,
        .tabClose tabId],
        .error (.capture ("Failed to extract elements: JavaScript execution failed: "
          ++ text) tabId "elements"))
    | none =>
      ([.tabListFetch, .tabConnect tabId, .scriptEval tabId sanitized,
        .tabClose tabId],
        .ok ((extractInPage sanitized dom).filter isOkEntry))

/-- `ChromeProvider.enableDomain`: return immediately when the domain is
already recorded in `enabledDomains`; otherwise issue the protocol
enable command and record the domain. -/
def enableDomain (s : ProviderState) (domain : String) :
    ProviderState × List Effect :=
  if s.enabledDomains.contains domain then (s, [])
  else ({ s with enabledDomains := s.enabledDomains ++ [domain] },
    [.domainEnable domain])

/-- `ChromeProvider.connect`: return immediately when already connected
(no probe, no transport open, no domain enables); otherwise run the
availability probe, open the root CDP client (`cdpOk` its outcome,
`cdpErr` the failure message), enable the Page, Runtime and DOM domains
through `enableDomain`, and set the connected flag.  Failures are
wrapped into a `BrowserConnectionError`. -/
def connectRun (s : ProviderState) (available : Bool) (cdpOk : Bool)
    (cdpErr : String) : ProviderState × List Effect × Except OpError Unit :=
  if s.connected then (s, [], .ok ())
  else if !available then
    (s, [.probe],
      .error (.connection ("Failed to connect to Chrome: Chrome not available on debug port 9222. Please start Chrome with --remote-debugging-port=9222")))
  else if !cdpOk then
    (s, [.probe, .cdpOpen],
      .error (.connection ("Failed to connect to Chrome: " ++ cdpErr)))
  else
    let s1 := { s with cdpClientOpen := true }
    let r1 := enableDomain s1 "Page"
    let r2 := enableDomain r1.1 "Runtime"
    let r3 := enableDomain r2.1 "DOM"
    ({ r3.1 with connected := true },
      [.probe, .cdpOpen] ++ r1.2 ++ r2.2 ++ r3.2, .ok ())

/-- The `CaptureResult` aggregate built by `captureTab` (the timestamp is
not modelled). -/
structure CaptureResultM where
  screenshot : Option String
  html : Option String
  css : Option String
  tabInfo : TabInfo
deriving DecidableEq, Repr

/-- The option record of `captureTab`. -/
structure CaptureTabOptions where
  screenshot : Option CaptureOptions
  html : Option HTMLCaptureOptions
  css : Option CSSCaptureOptions
deriving DecidableEq, Repr

/-- `BaseBrowserProvider.captureTab`: check the connected flag, resolve
the tab once via `listTabs` (`TabNotFoundError` when absent), then run
exactly the requested sub-captures in the order screenshot, HTML, CSS —
each a full façade operation with its own tab-list fetch and session —
aggregating into a `CaptureResult`; the first sub-capture failure
aborts the compound call, wrapped into a `CaptureError` of kind
complete. -/
def captureTabRun (s : ProviderState) (tabs : List TabInfo) (tabId : String)
    (o : CaptureTabOptions) (envS envH envC : TabSessionEnv)
    (dataS dataH dataC : String) :
    List Effect × Except OpError CaptureResultM :=
  if !s.connected then ([], .error (.connection notConnectedMsg))
  else match findTab tabs tabId with
  | none => ([.tabListFetch], .error (.tabNotFound (tabNotFoundMsg tabId) tabId))
  | some tab =>
    let stepS : List Effect × Except OpError (Option String) :=
      match o.screenshot with
      | none => ([], .ok none)
      | some so =>
        let r := captureScreenshotRun s tabs tabId so envS dataS
        (r.1, r.2.map some)
    match stepS.2 with
    | .error e =>
      (.tabListFetch :: stepS.1,
        .error (.capture ("Failed to capture tab " ++ tabId ++ ": " ++ e.message)
          tabId "complete"))
    | .ok shot =>
      let stepH : List Effect × Except OpError (Option String) :=
        match o.html with
        | none => ([], .ok none)
        | some ho =>
          let r := captureHTMLRun s tabs tabId ho envH dataH
          (r.1, r.2.map some)
      match stepH.2 with
      | .error e =>
        (.tabListFetch :: (stepS.1 ++ stepH.1),
          .error (.capture ("Failed to capture tab " ++ tabId ++ ": " ++ e.message)
            tabId "complete"))
      | .ok htmlOut =>
        let stepC : List Effect × Except OpError (Option String) :=
          match o.css with
          | none => ([], .ok none)
          | some co =>
            let r := captureCSSRun s tabs tabId co envC dataC
            (r.1, r.2.map some)
        match stepC.2 with
        | .error e =>
          (.tabListFetch :: (stepS.1 ++ stepH.1 ++ stepC.1),
            .error (.capture ("Failed to capture tab " ++ tabId ++ ": " ++ e.message)
              tabId "complete"))
        | .ok cssOut =>
          (.tabListFetch :: (stepS.1 ++ stepH.1 ++ stepC.1),
            .ok ⟨shot, htmlOut, cssOut, tab⟩)

/-- The scroll types of the `scroll_page` tool schema in `src/server.ts`:
pixels (relative offset), coordinates (absolute position), viewport
(page up/down by one viewport height), element (scroll a selector match
into view), top, bottom. -/
inductive ScrollType where
  | pixels
  | coordinates
  | viewport
  | element
  | top
  | bottom
deriving DecidableEq, Repr

/-- The scroll options object assembled by the `scroll_page` tool handler
in `src/server.ts`: `scrollType` and `smooth` always, and `x`, `y`,
`selector` only when defined. -/
structure ScrollOptions where
  scrollType : ScrollType
  x : Option Int
  y : Option Int
  selector : Option String
  smooth : Bool
deriving DecidableEq, Repr

/-- Modelled from the spec: the provider implementation of `scrollPage`
is not present under src (only its caller, the `scroll_page` tool
handler in `src/server.ts`, which forwards `scrollType`, `x`, `y`,
`selector` and `smooth`).  Following the spec (sections 4.5 and 8):
the operation requires the Connected state and an existing tab; it
supports the six scroll types; `element` fails with a validation-style
error when `selector` is missing, and when the selector matches no
element; the other five types scroll unconditionally.
`selMatches` tells whether a selector matches an element in the page. -/
def scrollPageRun (s : ProviderState) (tabs : List TabInfo) (tabId : String)
    (o : ScrollOptions) (selMatches : String → Bool) :
    List Effect × Except OpError Unit :=
  if !s.connected then ([], .error (.connection notConnectedMsg))
  else match findTab tabs tabId with
  | none => ([.tabListFetch], .error (.tabNotFound (tabNotFoundMsg tabId) tabId))
  | some _ =>
    match o.scrollType with
    | .element =>
      match o.selector with
      | none =>
        ([.tabListFetch],
          .error (.validation "Element scrolling requires a selector"))
      | some sel =>
        if selMatches sel then
          ([.tabListFetch, .scriptEval tabId [sel]], .ok ())
        else
          ([.tabListFetch, .scriptEval tabId [sel]],
            .error (.validation "No element found for selector"))
    | _ => ([.tabListFetch, .scriptEval tabId []], .ok ())

/-- An element forest in first-child/next-sibling form: either empty, or
an element node with a tag name, an attribute list, a forest of child
elements, and the forest of its following siblings.  (Text nodes are
not represented: the stripping script only removes elements and
attributes, and serialized text cannot form a tag.) -/
inductive Forest where
  | nil : Forest
  | node (tag : String) (attrs : List (String × String))
      (children : Forest) (rest : Forest) : Forest
deriving DecidableEq, Repr

/-- A document as cloned by the strip-mode script of `captureHTML`: the
root `document.documentElement` (always the `html` element) with its
attribute list, and the forest of its descendants. -/
structure HTMLDoc where
  rootAttrs : List (String × String)
  body : Forest
deriving DecidableEq, Repr

/-- `clone.querySelectorAll('script')` followed by `.remove()` on every
hit: every `script` descendant is detached together with its subtree.
`querySelectorAll` only returns descendants of the clone, never the
clone root itself, so this runs on the root forest. -/
def stripScripts : Forest → Forest
  | .nil => .nil
  | .node t a cs rest =>
    if t = "script" then stripScripts rest
    else .node t a (stripScripts cs) (stripScripts rest)

/-- Whether an element is matched by the selector
`style, link[rel="stylesheet"]`: a `style` tag, or a `link` tag whose
`rel` attribute is `stylesheet`. -/
def isStyleNode (tag : String) (attrs : List (String × String)) : Bool :=
  tag = "style" ||
    (tag = "link" &&
      (attrs.lookup "rel" == some "stylesheet"))

/-- Removal of every descendant matched by
`style, link[rel="stylesheet"]`, with its subtree. -/
def stripStyleNodes : Forest → Forest
  | .nil => .nil
  | .node t a cs rest =>
    if isStyleNode t a then stripStyleNodes rest
    else .node t a (stripStyleNodes cs) (stripStyleNodes rest)

/-- `clone.querySelectorAll('[style]')` followed by
`removeAttribute('style')`: every descendant loses its inline `style`
attribute.  Again the clone root itself is not part of the query
result. -/
def stripStyleAttrs : Forest → Forest
  | .nil => .nil
  | .node t a cs rest =>
    .node t (a.filter (fun p => p.1 ≠ "style"))
      (stripStyleAttrs cs) (stripStyleAttrs rest)

/-- The strip-mode transformation of `captureHTML` (entered when no
selectors are given and at least one of `includeScripts`,
`includeStyles` is not truthy): scripts are removed when
`includeScripts` is not truthy, then style elements, stylesheet links,
and inline style attributes are removed when `includeStyles` is not
truthy; the root element and its attributes are serialized as-is. -/
def captureHTMLStrip (o : HTMLCaptureOptions) (d : HTMLDoc) : HTMLDoc :=
  let f := if o.includeScripts = some true then d.body else stripScripts d.body
  let f := if o.includeStyles = some true then f
           else stripStyleAttrs (stripStyleNodes f)
  ⟨d.rootAttrs, f⟩

/-- Whether some element of the forest has the given tag. -/
def hasTag (tag : String) : Forest → Bool
  | .nil => false
  | .node t _ cs rest => t = tag || hasTag tag cs || hasTag tag rest

/-- Whether some element of the forest is a stylesheet `link`. -/
def hasStylesheetLink : Forest → Bool
  | .nil => false
  | .node t a cs rest =>
    isStyleNode t a && t = "link" || hasStylesheetLink cs || hasStylesheetLink rest

/-- Whether some element of the forest carries an inline `style`
attribute. -/
def hasInlineStyle : Forest → Bool
  | .nil => false
  | .node _ a cs rest =>
    (a.any (fun p => p.1 = "style")) || hasInlineStyle cs || hasInlineStyle rest

/-- Whether any element of the serialized document — the root included —
carries an inline `style` attribute. -/
def docHasInlineStyle (d : HTMLDoc) : Bool :=
  d.rootAttrs.any (fun p => p.1 = "style") || hasInlineStyle d.body

/-- A concrete tab fixture. -/
def tabA : TabInfo := ⟨"A", "https://example.com/a", "Tab A", true⟩

/-- A second concrete tab fixture. -/
def tabB : TabInfo := ⟨"B", "https://example.com/b", "Tab B", false⟩

/-- A provider state after a successful `connect()`. -/
def connectedState : ProviderState := ⟨true, true, ["Page", "Runtime", "DOM"]⟩

/-- The initial provider state. -/
def disconnectedState : ProviderState := ⟨false, false, []⟩

/-- A tab-session environment in which every external interaction
succeeds. -/
def envOk : TabSessionEnv := ⟨true, "", true, "", none⟩

/-- Every selector surviving `sanitizeSelectors` passes the allow-list
test. -/
theorem selectorOk_of_mem_sanitize {l : List String} {x : String}
    (hx : x ∈ sanitizeSelectors l) : selectorOk x = true :=
  (List.mem_filter.mp hx).2

/-- A tab identifier absent from the listing makes `findTab` return
`none`. -/
theorem findTab_eq_none {tabs : List TabInfo} {tabId : String}
    (h : tabId ∉ tabs.map TabInfo.id) : findTab tabs tabId = none := by
  apply List.find?_eq_none.mpr
  intro t ht
  simp only [beq_iff_eq]
  intro he
  exact h (List.mem_map.mpr ⟨t, ht, he⟩)

/-- The selectors embedded into generated script payloads along a trace:
the concatenation of the selector lists of its `scriptEval` effects. -/
def payloadSelectors : List Effect → List String
  | [] => []
  | .scriptEval _ ss :: rest => ss ++ payloadSelectors rest
  | _ :: rest => payloadSelectors rest

/-- Claim C2, as stated, is false: `captureCSS` with an empty selector
list on a connected provider and an existing tab does raise the
validation error, but only after `findTabById` has performed the
tab-list network fetch — the trace at the failure point is
`[tabListFetch]`, not empty.  (The source checks
`options.selectors.length` after `assertConnected()` and
`await this.findTabById(tabId)`.) -/
theorem C2_validation_after_tab_lookup_counterexample :
    (captureCSSRun connectedState [tabA] "A" ⟨some [], none, none, none⟩ envOk "").1 =
      [Effect.tabListFetch] ∧
    (captureCSSRun connectedState [tabA] "A" ⟨some [], none, none, none⟩ envOk "").2 =
      .error (.validation "CSS capture requires at least one selector") ∧
    ([Effect.tabListFetch] : List Effect) ≠ [] := by
  refine ⟨rfl, rfl, by decide⟩

/-- Claim C2, amended: `captureCSS` with an empty or missing selector
list, and `extractElements` with an all-sanitized-out selector list,
fail with the validation error before any tab-session connection or
script evaluation — but after the tab-existence lookup, which performs
one tab-list network fetch; the trace at the failure point is exactly
that single fetch. -/
theorem C2_validation_before_session (s : ProviderState) (tabs : List TabInfo)
    (tabId : String) (tab : TabInfo) (o : CSSCaptureOptions)
    (sels : List String) (env env' : TabSessionEnv) (v : String)
    (dom : String → List PageElem)
    (hc : s.connected = true) (ht : findTab tabs tabId = some tab)
    (ho : o.selectors = none ∨ o.selectors = some [])
    (hs : sanitizeSelectors sels = []) :
    captureCSSRun s tabs tabId o env v =
      ([.tabListFetch],
        .error (.validation "CSS capture requires at least one selector")) ∧
    extractElementsRun s tabs tabId sels env' dom =
      ([.tabListFetch], .error (.validation "No valid selectors provided")) := by
  constructor
  · rcases ho with h | h <;> simp [captureCSSRun, hc, ht, h]
  · simp [extractElementsRun, hc, ht, hs]

/-- Witness for the amended C2 at concrete inputs: a missing selector
list for `captureCSS`, and a selector list whose only entry fails
sanitization for `extractElements`. -/
theorem C2_validation_before_session_witness :
    captureCSSRun connectedState [tabA] "A" ⟨none, none, none, none⟩ envOk "" =
      ([.tabListFetch],
        .error (.validation "CSS capture requires at least one selector")) ∧
    extractElementsRun connectedState [tabA] "A" ["a;b"] envOk (fun _ => []) =
      ([.tabListFetch], .error (.validation "No valid selectors provided")) :=
  C2_validation_before_session connectedState [tabA] "A" tabA
    ⟨none, none, none, none⟩ ["a;b"] envOk envOk "" (fun _ => [])
    rfl (by decide) (Or.inl rfl) (by decide)

/-- Claim C3, as stated, is false: `captureHTML` embeds the
caller-supplied selectors into its generated script payload without
sanitization.  The selector `a;b` fails the allow-list test (a
semicolon is not an allowed character), yet it appears verbatim in the
script-evaluation payload of a `captureHTML` call. -/
theorem C3_captureHTML_unsanitized_counterexample :
    Effect.scriptEval "A" ["a;b"] ∈
      (captureHTMLRun connectedState [tabA] "A"
        ⟨none, none, none, some ["a;b"]⟩ envOk "x").1 ∧
    selectorOk "a;b" = false := by
  refine ⟨by decide, by decide⟩

/-- Claim C3, amended: the selectors embedded into the generated script
payloads of `captureCSS` and `extractElements` all match the
allow-listed character set, failing selectors having been dropped by
`sanitizeSelectors` before the payload is built; `captureHTML`,
however, embeds the caller selector list verbatim (invalid selectors
are only skipped by the in-page try/catch). -/
theorem C3_css_extract_payloads_sanitized (s : ProviderState)
    (tabs : List TabInfo) (tabId : String) (o : CSSCaptureOptions)
    (sels : List String) (env env' : TabSessionEnv) (v : String)
    (dom : String → List PageElem) :
    (∀ x ∈ payloadSelectors (captureCSSRun s tabs tabId o env v).1,
      selectorOk x = true) ∧
    (∀ x ∈ payloadSelectors (extractElementsRun s tabs tabId sels env' dom).1,
      selectorOk x = true) := by
  have hcss : payloadSelectors (captureCSSRun s tabs tabId o env v).1 ⊆
      sanitizeSelectors (o.selectors.getD []) := by
    unfold captureCSSRun
    repeat' split
    all_goals simp_all [payloadSelectors]
  have hext : payloadSelectors (extractElementsRun s tabs tabId sels env' dom).1 ⊆
      sanitizeSelectors sels := by
    unfold extractElementsRun
    repeat' split
    all_goals try simp_all [payloadSelectors]
    all_goals repeat' split
    all_goals simp_all [payloadSelectors]
  exact ⟨fun x hx => selectorOk_of_mem_sanitize (hcss hx),
    fun x hx => selectorOk_of_mem_sanitize (hext hx)⟩

/-- Witness for the amended C3 at a concrete input: a `captureCSS` call
whose selector list mixes a valid and an invalid selector embeds only
allow-listed selectors. -/
theorem C3_css_extract_payloads_sanitized_witness :
    (∀ x ∈ payloadSelectors (captureCSSRun connectedState [tabA] "A"
        ⟨some ["div", "a;b"], none, none, none⟩ envOk "").1,
      selectorOk x = true) ∧
    (∀ x ∈ payloadSelectors (extractElementsRun connectedState [tabA] "A"
        ["div", "a;b"] envOk (fun _ => [])).1,
      selectorOk x = true) :=
  C3_css_extract_payloads_sanitized connectedState [tabA] "A"
    ⟨some ["div", "a;b"], none, none, none⟩ ["div", "a;b"] envOk envOk ""
    (fun _ => [])

/-- Claim C5, as stated, is false for `getCapabilities`: on a provider
that is not connected, `getCapabilities()` does not fail with a
`BrowserConnectionError` — the method returns the tier-1 capability
record without consulting the connection state (it performs no I/O). -/
theorem C5_getCapabilities_counterexample :
    getCapabilitiesRun disconnectedState = ([], .ok TIER_1_CAPABILITIES) ∧
    (Except.ok TIER_1_CAPABILITIES ≠
      (Except.error (OpError.connection notConnectedMsg) :
        Except OpError BrowserCapabilities)) := by
  refine ⟨rfl, by simp⟩

/-- Claim C5, amended: every façade operation that performs I/O —
`listTabs`, `captureScreenshot`, `captureHTML`, `captureCSS`,
`extractElements`, `setActiveTab`, `captureTab`, `scrollPage` — fails
with a `BrowserConnectionError` (and performs no external effect) when
the provider is not in the Connected state; `getCapabilities`, which
performs no I/O, succeeds without a connection. -/
theorem C5_not_connected_all_ops (s : ProviderState)
    (tabs : List TabInfo) (tabId : String) (oS : CaptureOptions)
    (oH : HTMLCaptureOptions) (oC : CSSCaptureOptions) (sels : List String)
    (oT : CaptureTabOptions) (oSc : ScrollOptions) (env : TabSessionEnv)
    (v : String) (dom : String → List PageElem) (fetchOk : Bool)
    (ferr : String) (raw : List RawTab) (postOk : Bool) (perr : String)
    (selM : String → Bool) (hc : s.connected = false) :
    listTabsRun s fetchOk ferr raw =
      ([], .error (.connection notConnectedMsg)) ∧
    captureScreenshotRun s tabs tabId oS env v =
      ([], .error (.connection notConnectedMsg)) ∧
    captureHTMLRun s tabs tabId oH env v =
      ([], .error (.connection notConnectedMsg)) ∧
    captureCSSRun s tabs tabId oC env v =
      ([], .error (.connection notConnectedMsg)) ∧
    extractElementsRun s tabs tabId sels env dom =
      ([], .error (.connection notConnectedMsg)) ∧
    setActiveTabRun s tabs tabId postOk perr =
      ([], .error (.connection notConnectedMsg)) ∧
    captureTabRun s tabs tabId oT env env env v v v =
      ([], .error (.connection notConnectedMsg)) ∧
    scrollPageRun s tabs tabId oSc selM =
      ([], .error (.connection notConnectedMsg)) ∧
    getCapabilitiesRun s = ([], .ok TIER_1_CAPABILITIES) := by
  refine ⟨?_, ?_, ?_, ?_, ?_, ?_, ?_, ?_, rfl⟩ <;>
    simp [listTabsRun, captureScreenshotRun, captureHTMLRun, captureCSSRun,
      extractElementsRun, setActiveTabRun, captureTabRun, scrollPageRun, hc]

/-- Witness for the amended C5 on the initial disconnected state. -/
theorem C5_not_connected_all_ops_witness :
    listTabsRun disconnectedState true "" [] =
      ([], .error (.connection notConnectedMsg)) ∧
    captureScreenshotRun disconnectedState [tabA] "A" ⟨none, none, none⟩ envOk "" =
      ([], .error (.connection notConnectedMsg)) ∧
    captureHTMLRun disconnectedState [tabA] "A" ⟨none, none, none, none⟩ envOk "" =
      ([], .error (.connection notConnectedMsg)) ∧
    captureCSSRun disconnectedState [tabA] "A" ⟨some ["div"], none, none, none⟩ envOk "" =
      ([], .error (.connection notConnectedMsg)) ∧
    extractElementsRun disconnectedState [tabA] "A" ["div"] envOk (fun _ => []) =
      ([], .error (.connection notConnectedMsg)) ∧
    setActiveTabRun disconnectedState [tabA] "A" true "" =
      ([], .error (.connection notConnectedMsg)) ∧
    captureTabRun disconnectedState [tabA] "A" ⟨none, none, none⟩ envOk envOk envOk "" "" "" =
      ([], .error (.connection notConnectedMsg)) ∧
    scrollPageRun disconnectedState [tabA] "A" ⟨.top, none, none, none, true⟩ (fun _ => true) =
      ([], .error (.connection notConnectedMsg)) ∧
    getCapabilitiesRun disconnectedState = ([], .ok TIER_1_CAPABILITIES) :=
  C5_not_connected_all_ops disconnectedState [tabA] "A" ⟨none, none, none⟩
    ⟨none, none, none, none⟩ ⟨some ["div"], none, none, none⟩ ["div"]
    ⟨none, none, none⟩ ⟨.top, none, none, none, true⟩ envOk "" (fun _ => [])
    true "" [] true "" (fun _ => true) rfl

/-- Claim C6: on a connected provider, every operation taking a tab
identifier that is absent from the current tab listing fails with a
`TabNotFoundError` carrying that identifier, and its external trace is
exactly the one tab-list fetch of the validation lookup — in
particular, no activation request, tab attachment, script evaluation or
screenshot command is ever issued for a tab that failed validation. -/
theorem C6_absent_tab_fails_without_mutation (s : ProviderState)
    (tabs : List TabInfo) (tabId : String) (oS : CaptureOptions)
    (oH : HTMLCaptureOptions) (oC : CSSCaptureOptions) (sels : List String)
    (oT : CaptureTabOptions) (env : TabSessionEnv) (v : String)
    (dom : String → List PageElem) (postOk : Bool) (perr : String)
    (hc : s.connected = true) (h : tabId ∉ tabs.map TabInfo.id) :
    captureScreenshotRun s tabs tabId oS env v =
      ([.tabListFetch], .error (.tabNotFound (tabNotFoundMsg tabId) tabId)) ∧
    captureHTMLRun s tabs tabId oH env v =
      ([.tabListFetch], .error (.tabNotFound (tabNotFoundMsg tabId) tabId)) ∧
    captureCSSRun s tabs tabId oC env v =
      ([.tabListFetch], .error (.tabNotFound (tabNotFoundMsg tabId) tabId)) ∧
    extractElementsRun s tabs tabId sels env dom =
      ([.tabListFetch], .error (.tabNotFound (tabNotFoundMsg tabId) tabId)) ∧
    setActiveTabRun s tabs tabId postOk perr =
      ([.tabListFetch], .error (.tabNotFound (tabNotFoundMsg tabId) tabId)) ∧
    captureTabRun s tabs tabId oT env env env v v v =
      ([.tabListFetch], .error (.tabNotFound (tabNotFoundMsg tabId) tabId)) ∧
    Effect.activatePost tabId ∉ (setActiveTabRun s tabs tabId postOk perr).1 := by
  have hf := findTab_eq_none h
  refine ⟨?_, ?_, ?_, ?_, ?_, ?_, ?_⟩ <;>
    simp [captureScreenshotRun, captureHTMLRun, captureCSSRun,
      extractElementsRun, setActiveTabRun, captureTabRun, hc, hf]

/-- Witness for C6: the spec scenario — the listing holds tabs `A` and
`B`, and `captureScreenshot("C", ...)` (and every other tab operation)
fails with `TabNotFoundError` for `C` after only the listing fetch. -/
theorem C6_absent_tab_fails_without_mutation_witness :
    captureScreenshotRun connectedState [tabA, tabB] "C" ⟨none, none, none⟩ envOk "" =
      ([.tabListFetch], .error (.tabNotFound (tabNotFoundMsg "C") "C")) ∧
    captureHTMLRun connectedState [tabA, tabB] "C" ⟨none, none, none, none⟩ envOk "" =
      ([.tabListFetch], .error (.tabNotFound (tabNotFoundMsg "C") "C")) ∧
    captureCSSRun connectedState [tabA, tabB] "C" ⟨some ["div"], none, none, none⟩ envOk "" =
      ([.tabListFetch], .error (.tabNotFound (tabNotFoundMsg "C") "C")) ∧
    extractElementsRun connectedState [tabA, tabB] "C" ["div"] envOk (fun _ => []) =
      ([.tabListFetch], .error (.tabNotFound (tabNotFoundMsg "C") "C")) ∧
    setActiveTabRun connectedState [tabA, tabB] "C" true "" =
      ([.tabListFetch], .error (.tabNotFound (tabNotFoundMsg "C") "C")) ∧
    captureTabRun connectedState [tabA, tabB] "C" ⟨none, none, none⟩ envOk envOk envOk "" "" "" =
      ([.tabListFetch], .error (.tabNotFound (tabNotFoundMsg "C") "C")) ∧
    Effect.activatePost "C" ∉ (setActiveTabRun connectedState [tabA, tabB] "C" true "").1 :=
  C6_absent_tab_fails_without_mutation connectedState [tabA, tabB] "C"
    ⟨none, none, none⟩ ⟨none, none, none, none⟩ ⟨some ["div"], none, none, none⟩
    ["div"] ⟨none, none, none⟩ envOk "" (fun _ => []) true "" rfl (by decide)

/-- `enableDomain` only ever extends the enabled-domain set. -/
theorem enableDomain_mono (s : ProviderState) (d : String) :
    s.enabledDomains ⊆ (enableDomain s d).1.enabledDomains := by
  unfold enableDomain
  split
  · exact List.Subset.refl _
  · exact List.subset_append_left _ _

/-- Claim C7: `connect()` is idempotent — on an already-connected
provider it performs no external effect (no probe, no transport open,
no domain-enable command) and returns the state unchanged; a
domain-enable command is never issued for a domain already recorded in
the enabled-domain set; and the enabled-domain set only ever grows
under `enableDomain` and `connect` (of the state-modifying operations
of the provider, only `disconnect` clears it). -/
theorem C7_connect_idempotent_domains_monotonic :
    (∀ (s : ProviderState) (a c : Bool) (e : String),
      s.connected = true → connectRun s a c e = (s, [], .ok ())) ∧
    (∀ (s : ProviderState) (d : String),
      d ∈ s.enabledDomains → enableDomain s d = (s, [])) ∧
    (∀ (s : ProviderState) (d : String),
      s.enabledDomains ⊆ (enableDomain s d).1.enabledDomains) ∧
    (∀ (s : ProviderState) (a c : Bool) (e : String),
      s.enabledDomains ⊆ (connectRun s a c e).1.enabledDomains) := by
  refine ⟨?_, ?_, enableDomain_mono, ?_⟩
  · intro s a c e hc
    simp [connectRun, hc]
  · intro s d hd
    simp [enableDomain, hd, List.contains, List.elem_iff]
  · intro s a c e
    unfold connectRun
    split
    · exact List.Subset.refl _
    · split
      · exact List.Subset.refl _
      · split
        · exact List.Subset.refl _
        · have h1 := enableDomain_mono { s with cdpClientOpen := true } "Page"
          have h2 := enableDomain_mono
            (enableDomain { s with cdpClientOpen := true } "Page").1 "Runtime"
          have h3 := enableDomain_mono
            (enableDomain (enableDomain { s with cdpClientOpen := true } "Page").1
              "Runtime").1 "DOM"
          exact fun x hx => h3 (h2 (h1 hx))

/-- Witness for C7: a second `connect()` on the connected state is a
no-op, and enabling the already-recorded Page domain issues nothing. -/
theorem C7_connect_idempotent_domains_monotonic_witness :
    connectRun connectedState true true "" = (connectedState, [], .ok ()) ∧
    enableDomain connectedState "Page" = (connectedState, []) :=
  ⟨C7_connect_idempotent_domains_monotonic.1 connectedState true true "" rfl,
    C7_connect_idempotent_domains_monotonic.2.1 connectedState "Page" (by decide)⟩

/-- Claim C4 (the provider `scrollPage` is modelled from the spec, its
implementation being absent from src): the operation admits the six
scroll types pixels, coordinates, viewport, element, top, bottom; on a
connected provider and an existing tab, an `element` scroll without a
selector fails with a validation-style error — a value distinct from
any successful no-op scroll result — while every other scroll type
succeeds. -/
theorem C4_scroll_element_requires_selector (s : ProviderState)
    (tabs : List TabInfo) (tabId : String) (tab : TabInfo) (sm : Bool)
    (selM : String → Bool) (hc : s.connected = true)
    (ht : findTab tabs tabId = some tab) :
    (scrollPageRun s tabs tabId ⟨.element, none, none, none, sm⟩ selM).2 =
      .error (.validation "Element scrolling requires a selector") ∧
    (scrollPageRun s tabs tabId ⟨.element, none, none, none, sm⟩ selM).2 ≠
      .ok () ∧
    (∀ (t : ScrollType) (x y : Option Int) (sel : Option String),
      t ≠ .element →
        (scrollPageRun s tabs tabId ⟨t, x, y, sel, sm⟩ selM).2 = .ok ()) := by
  refine ⟨?_, ?_, ?_⟩
  · simp [scrollPageRun, hc, ht]
  · simp [scrollPageRun, hc, ht]
  · intro t x y sel hne
    cases t <;> simp_all [scrollPageRun, hc, ht]

/-- Witness for C4: the spec scenario `scrollPage("A", scrollType
element)` with no selector on a connected provider with tab `A`. -/
theorem C4_scroll_element_requires_selector_witness :
    (scrollPageRun connectedState [tabA] "A" ⟨.element, none, none, none, true⟩
      (fun _ => true)).2 =
      .error (.validation "Element scrolling requires a selector") ∧
    (scrollPageRun connectedState [tabA] "A" ⟨.element, none, none, none, true⟩
      (fun _ => true)).2 ≠ .ok () ∧
    (∀ (t : ScrollType) (x y : Option Int) (sel : Option String),
      t ≠ .element →
        (scrollPageRun connectedState [tabA] "A" ⟨t, x, y, sel, true⟩
          (fun _ => true)).2 = .ok ()) :=
  C4_scroll_element_requires_selector connectedState [tabA] "A" tabA true
    (fun _ => true) rfl (by decide)

/-- After `stripScripts`, no `script` element remains anywhere in the
forest. -/
theorem hasTag_script_stripScripts (f : Forest) :
    hasTag "script" (stripScripts f) = false := by
  induction f with
  | nil => rfl
  | node t a cs rest ih1 ih2 =>
    by_cases ht : t = "script"
    · simp [stripScripts, ht, ih2]
    · simp [stripScripts, hasTag, ht, ih1, ih2]

/-- After `stripStyleNodes`, no `style` element remains. -/
theorem hasTag_style_stripStyleNodes (f : Forest) :
    hasTag "style" (stripStyleNodes f) = false := by
  induction f with
  | nil => rfl
  | node t a cs rest ih1 ih2 =>
    by_cases hs : isStyleNode t a = true
    · simp [stripStyleNodes, hs, ih2]
    · have ht : t ≠ "style" := by
        intro he
        exact hs (by simp [isStyleNode, he])
      simp [stripStyleNodes, hs, hasTag, ht, ih1, ih2]

/-- After `stripStyleNodes`, no stylesheet `link` element remains. -/
theorem hasStylesheetLink_stripStyleNodes (f : Forest) :
    hasStylesheetLink (stripStyleNodes f) = false := by
  induction f with
  | nil => rfl
  | node t a cs rest ih1 ih2 =>
    by_cases hs : isStyleNode t a = true
    · simp [stripStyleNodes, hs, ih2]
    · simp [stripStyleNodes, hs, hasStylesheetLink, ih1, ih2]

/-- `stripStyleNodes` removes elements only: a tag absent before is
absent after. -/
theorem hasTag_stripStyleNodes_of_not (tag : String) (f : Forest)
    (h : hasTag tag f = false) : hasTag tag (stripStyleNodes f) = false := by
  induction f with
  | nil => rfl
  | node t a cs rest ih1 ih2 =>
    simp only [hasTag, Bool.or_eq_false_iff] at h
    obtain ⟨⟨h1, h2⟩, h3⟩ := h
    by_cases hs : isStyleNode t a = true
    · simp [stripStyleNodes, hs, ih2 h3]
    · simp [stripStyleNodes, hs, hasTag, h1, ih1 h2, ih2 h3]

/-- Removing `style` attributes does not change which tags occur. -/
theorem hasTag_stripStyleAttrs (tag : String) (f : Forest) :
    hasTag tag (stripStyleAttrs f) = hasTag tag f := by
  induction f with
  | nil => rfl
  | node t a cs rest ih1 ih2 =>
    simp [stripStyleAttrs, hasTag, ih1, ih2]

/-- Dropping the `style` keys of an attribute list does not change the
`rel` lookup. -/
theorem lookup_rel_filter_style (a : List (String × String)) :
    (a.filter (fun p => !decide (p.1 = "style"))).lookup "rel" = a.lookup "rel" := by
  induction a with
  | nil => rfl
  | cons p tl ih =>
    obtain ⟨k, v⟩ := p
    by_cases hp : k = "style"
    · subst hp
      have hb : ("rel" == "style") = false := by decide
      simp [List.filter_cons, List.lookup, hb, ih]
    · have hd : (!decide (k = "style")) = true := by simp [hp]
      by_cases hr : ("rel" == k) = true
      · simp [List.filter_cons, hd, List.lookup, hr]
      · simp [List.filter_cons, hd, List.lookup, hr, ih]

/-- Removing `style` attributes does not change which elements are
stylesheet links. -/
theorem hasStylesheetLink_stripStyleAttrs (f : Forest) :
    hasStylesheetLink (stripStyleAttrs f) = hasStylesheetLink f := by
  induction f with
  | nil => rfl
  | node t a cs rest ih1 ih2 =>
    simp [stripStyleAttrs, hasStylesheetLink, isStyleNode, ih1, ih2,
      lookup_rel_filter_style]

/-- After `stripStyleAttrs`, no element of the forest carries an inline
`style` attribute. -/
theorem hasInlineStyle_stripStyleAttrs (f : Forest) :
    hasInlineStyle (stripStyleAttrs f) = false := by
  induction f with
  | nil => rfl
  | node t a cs rest ih1 ih2 =>
    simp only [stripStyleAttrs, hasInlineStyle, ih1, ih2, Bool.or_false]
    simp [List.any_eq_true, List.mem_filter]

/-- Claim C8, as stated, is false for the inline-style part: the strip
script removes `style` attributes with
`clone.querySelectorAll('[style]')`, and `querySelectorAll` never
returns the element it is invoked on, so a `style` attribute sitting on
the root `html` element itself survives `includeStyles=false`.  At the
concrete document `<html style="color:red"></html>`, the stripped
result still contains an element carrying an inline style attribute. -/
theorem C8_root_inline_style_counterexample :
    docHasInlineStyle (captureHTMLStrip ⟨some false, some false, none, none⟩
      ⟨[("style", "color:red")], .nil⟩) = true := by decide

/-- Claim C8, amended: `captureHTML` with `includeScripts=false` (and no
selectors) returns a document with zero `script` elements; with
`includeStyles=false` it returns a document with no `style` elements,
no stylesheet `link` elements, and no descendant element carrying an
inline `style` attribute — but an inline `style` attribute on the root
`html` element itself is not removed, because the removal query only
visits descendants of the cloned root. -/
theorem C8_strip_no_scripts_styles (o : HTMLCaptureOptions) (d : HTMLDoc) :
    (o.includeScripts = some false →
      hasTag "script" (captureHTMLStrip o d).body = false) ∧
    (o.includeStyles = some false →
      hasTag "style" (captureHTMLStrip o d).body = false ∧
      hasStylesheetLink (captureHTMLStrip o d).body = false ∧
      hasInlineStyle (captureHTMLStrip o d).body = false) := by
  constructor
  · intro hsc
    simp only [captureHTMLStrip, hsc]
    by_cases hst : o.includeStyles = some true
    · simp [hst, hasTag_script_stripScripts]
    · simp [hst, hasTag_stripStyleAttrs,
        hasTag_stripStyleNodes_of_not _ _ (hasTag_script_stripScripts d.body)]
  · intro hst
    simp only [captureHTMLStrip, hst]
    refine ⟨?_, ?_, ?_⟩ <;>
      simp [hasTag_stripStyleAttrs, hasTag_style_stripStyleNodes,
        hasStylesheetLink_stripStyleAttrs, hasStylesheetLink_stripStyleNodes,
        hasInlineStyle_stripStyleAttrs]

/-- A concrete document fixture: head with a script and a style element,
body with a stylesheet link and an inline style attribute. -/
def demoDoc : HTMLDoc :=
  ⟨[("lang", "en")],
    .node "head" []
      (.node "script" [("src", "a.js")] .nil
        (.node "style" [] .nil .nil))
      (.node "body" [("style", "margin:0")]
        (.node "link" [("rel", "stylesheet"), ("href", "a.css")] .nil .nil)
        .nil)⟩

/-- Witness for the amended C8 on the `demoDoc` fixture with both include
flags false. -/
theorem C8_strip_no_scripts_styles_witness :
    hasTag "script"
      (captureHTMLStrip ⟨some false, some false, none, none⟩ demoDoc).body = false ∧
    hasTag "style"
      (captureHTMLStrip ⟨some false, some false, none, none⟩ demoDoc).body = false ∧
    hasStylesheetLink
      (captureHTMLStrip ⟨some false, some false, none, none⟩ demoDoc).body = false ∧
    hasInlineStyle
      (captureHTMLStrip ⟨some false, some false, none, none⟩ demoDoc).body = false :=
  ⟨(C8_strip_no_scripts_styles ⟨some false, some false, none, none⟩ demoDoc).1 rfl,
    (C8_strip_no_scripts_styles ⟨some false, some false, none, none⟩ demoDoc).2 rfl⟩

/-- The surviving (non-error) entries produced by the per-element loop
are at most one per inspected element. -/
theorem collectEntries_filter_length (sel : String) (total : Nat) :
    ∀ (i : Nat) (l : List PageElem),
      ((collectEntries sel total i l).filter isOkEntry).length ≤ l.length := by
  intro i l
  induction l generalizing i with
  | nil => simp [collectEntries]
  | cons e es ih =>
    by_cases he : e.throws
    · simp [collectEntries, he, isOkEntry]
    · simp only [collectEntries, he, Bool.false_eq_true, if_false,
        List.filter_cons, isOkEntry, List.length_cons]
      exact Nat.succ_le_succ (ih _)

/-- Per selector, at most 10 entries survive the error filter. -/
theorem processSelector_filter_le_ten (sel : String) (ms : List PageElem) :
    ((processSelector sel ms).filter isOkEntry).length ≤ 10 := by
  unfold processSelector
  split
  · simp [isOkEntry]
  · refine le_trans (collectEntries_filter_length sel ms.length 0 _) ?_
    rw [List.length_take]
    exact le_trans (Nat.min_le_left _ _) (Nat.min_le_right _ _)

/-- Filtering the flattened per-selector entry lists filters each
selector's contribution independently. -/
theorem extractInPage_filter (sels : List String)
    (dom : String → List PageElem) :
    (extractInPage sels dom).filter isOkEntry =
      (sels.map (fun s => (processSelector s (dom s)).filter isOkEntry)).flatten := by
  unfold extractInPage
  induction sels with
  | nil => rfl
  | cons s ss ih => simp [List.filter_append, ih]

/-- Claim C9: `extractElements` returns at most 10 entries per selector;
error marker entries (zero-match selectors, per-element exceptions) are
absent from the returned list; the returned list is the independent
concatenation of each selector's surviving entries, so one selector's
failures do not reduce another's count; and when the script evaluation
itself succeeds the overall call succeeds with exactly that filtered
list, whatever per-selector failures occurred in the page. -/
theorem C9_extract_caps_and_filtering :
    (∀ (sel : String) (ms : List PageElem),
      ((processSelector sel ms).filter isOkEntry).length ≤ 10) ∧
    (∀ (sels : List String) (dom : String → List PageElem)
      (e : ExtractEntry), e ∈ (extractInPage sels dom).filter isOkEntry →
        isOkEntry e = true) ∧
    (∀ (sels : List String) (dom : String → List PageElem),
      (extractInPage sels dom).filter isOkEntry =
        (sels.map (fun s => (processSelector s (dom s)).filter isOkEntry)).flatten) ∧
    (∀ (s : ProviderState) (tabs : List TabInfo) (tabId : String)
      (selectors : List String) (env : TabSessionEnv)
      (dom : String → List PageElem) (tab : TabInfo),
      s.connected = true → findTab tabs tabId = some tab →
      sanitizeSelectors selectors ≠ [] → env.connectOk = true →
      env.cmdOk = true → env.pageException = none →
      (extractElementsRun s tabs tabId selectors env dom).2 =
        .ok ((extractInPage (sanitizeSelectors selectors) dom).filter isOkEntry)) := by
  refine ⟨processSelector_filter_le_ten,
    fun sels dom e he => (List.mem_filter.mp he).2,
    extractInPage_filter, ?_⟩
  intro s tabs tabId selectors env dom tab hc ht hne hco hcm hpe
  simp [extractElementsRun, hc, ht, hne, hco, hcm, hpe,
    List.length_eq_zero]

/-- A concrete match-list fixture: twelve elements, the sixth of which
throws during inspection. -/
def demoElems : List PageElem :=
  (List.range 12).map (fun i => ⟨i, i == 5, "boom"⟩)

/-- Witness for C9: the cap and the successful filtered run on the
`demoElems` fixture. -/
theorem C9_extract_caps_and_filtering_witness :
    ((processSelector "div" demoElems).filter isOkEntry).length ≤ 10 ∧
    (extractElementsRun connectedState [tabA] "A" ["div"] envOk
      (fun _ => demoElems)).2 =
      .ok ((extractInPage (sanitizeSelectors ["div"])
        (fun _ => demoElems)).filter isOkEntry) :=
  ⟨C9_extract_caps_and_filtering.1 "div" demoElems,
    C9_extract_caps_and_filtering.2.2.2 connectedState [tabA] "A" ["div"]
      envOk (fun _ => demoElems) tabA rfl (by decide) (by decide) rfl rfl rfl⟩

end BrowserLens
